import Mathlib

/-!
Shallow embedding of the augustus VM lifecycle controller
(`src/main.cpp`, `src/vm.cpp`; `kvm.cpp` is an earlier revision of the
same wrapper).  The controller wraps a hypervisor daemon (libvirt): the
daemon itself, the filesystem and the process environment are modelled
as explicit oracle parameters, and every daemon request an operation
issues is recorded in a trace so that claims about which calls are made
can be stated and proved.
-/

namespace Augustus

/-- Domain types supported by the controller (`enum DomainType` in
`src/vm.cpp`, values QEMU = 0 and KVM = 1). -/
inductive DomainType where
  | QEMU
  | KVM
deriving DecidableEq

/-- Wire-format tag for each domain type (`domain_type_strings` array in
`src/vm.cpp`, indexed by the enumeration value). -/
def domain_type_strings : DomainType → String
  | DomainType.QEMU => "qemu"
  | DomainType.KVM => "kvm"

/-- libvirt raw state code VIR_DOMAIN_NOSTATE. -/
def VIR_DOMAIN_NOSTATE : Nat := 0
/-- libvirt raw state code VIR_DOMAIN_RUNNING. -/
def VIR_DOMAIN_RUNNING : Nat := 1
/-- libvirt raw state code VIR_DOMAIN_BLOCKED. -/
def VIR_DOMAIN_BLOCKED : Nat := 2
/-- libvirt raw state code VIR_DOMAIN_PAUSED. -/
def VIR_DOMAIN_PAUSED : Nat := 3
/-- libvirt raw state code VIR_DOMAIN_SHUTDOWN. -/
def VIR_DOMAIN_SHUTDOWN : Nat := 4
/-- libvirt raw state code VIR_DOMAIN_SHUTOFF. -/
def VIR_DOMAIN_SHUTOFF : Nat := 5
/-- libvirt raw state code VIR_DOMAIN_CRASHED. -/
def VIR_DOMAIN_CRASHED : Nat := 6
/-- libvirt raw state code VIR_DOMAIN_PMSUSPENDED (not handled by the
switch in `getStateString`). -/
def VIR_DOMAIN_PMSUSPENDED : Nat := 7

/-- `VMManager::getStateString` (`src/vm.cpp` lines 36-46): switch over
the raw libvirt domain state code, defaulting to "Unknown".  The C++
parameter is an `unsigned char`; it is modelled as a natural number. -/
def getStateString (state : Nat) : String :=
  if state = VIR_DOMAIN_RUNNING then "Running"
  else if state = VIR_DOMAIN_BLOCKED then "Blocked"
  else if state = VIR_DOMAIN_PAUSED then "Paused"
  else if state = VIR_DOMAIN_SHUTDOWN then "Shutdown"
  else if state = VIR_DOMAIN_SHUTOFF then "Shutoff"
  else if state = VIR_DOMAIN_CRASHED then "Crashed"
  else "Unknown"

/-- Filesystem oracle for `findQEMUPath`: for a path, whether `stat`
succeeds, whether `S_ISREG` holds of the stat result, and whether
`access(path, X_OK)` succeeds. -/
structure FS where
  statOk : String → Bool
  isReg : String → Bool
  execOk : String → Bool

/-- The per-candidate test of the loop in `VMManager::findQEMUPath`
(`src/vm.cpp` lines 62-70): `stat` succeeds, the entry is a regular
file, and it is executable by the current process. -/
def candidateOk (fs : FS) (path : String) : Bool :=
  fs.statOk path && (fs.isReg path && fs.execOk path)

/-- The fixed candidate list of `VMManager::findQEMUPath`
(`src/vm.cpp` lines 56-60). -/
def qemu_paths : List String :=
  ["/opt/homebrew/bin/qemu-system-x86_64",
   "/usr/local/bin/qemu-system-x86_64",
   "/usr/bin/qemu-system-x86_64"]

/-- The fixed binary name passed to the system lookup fallback
(`which qemu-system-x86_64`, `src/vm.cpp` line 73). -/
def qemuBinaryName : String := "qemu-system-x86_64"

/-- Environment oracle: `sysLookup b` is the line read from the pipe of
`which b` (`fgets` in `src/vm.cpp` lines 73-76), `none` when the pipe
yields no output. -/
structure SysEnv where
  sysLookup : String → Option String

/-- Trailing-newline trim applied to the `which` output
(`src/vm.cpp` lines 80-82): drop the final character when the string is
non-empty and ends in a newline. -/
def trimTrailingNewline (s : String) : String :=
  if s ≠ "" ∧ s.back = '\n' then s.dropRight 1 else s

/-- The candidate loop of `VMManager::findQEMUPath` (`src/vm.cpp` lines
62-70): return the first candidate satisfying `candidateOk`. -/
def findFirstQEMU (fs : FS) : List String → Option String
  | [] => none
  | path :: rest =>
    if candidateOk fs path then some path else findFirstQEMU fs rest

/-- `VMManager::findQEMUPath` (`src/vm.cpp` lines 54-92) generalized
over the candidate list: first candidate that is an executable regular
file, otherwise the trimmed `which` output when non-empty, otherwise
the empty string (not found).  The boolean records whether the `popen`
fallback was reached. -/
def findQEMUPathWith (fs : FS) (env : SysEnv) (paths : List String) :
    String × Bool :=
  match findFirstQEMU fs paths with
  | some path => (path, false)
  | none =>
    match env.sysLookup qemuBinaryName with
    | some buffer =>
      let result := trimTrailingNewline buffer
      if result ≠ "" then (result, true) else ("", true)
    | none => ("", true)

/-- `VMManager::findQEMUPath` at the fixed candidate list of the
source. -/
def findQEMUPath (fs : FS) (env : SysEnv) : String × Bool :=
  findQEMUPathWith fs env qemu_paths

/-- One request issued to the hypervisor daemon (the libvirt calls the
wrapper makes on a connection or domain handle). -/
inductive DaemonCall where
  | defineXML (xml : String)
  | create
  | shutdown
  | destroy
  | undefine
deriving DecidableEq

/-- Daemon oracle: the responses the libvirt daemon gives to each call
(`virDomainDefineXML` returns a handle or null; the lifecycle calls
return a negative integer on failure). -/
structure Daemon where
  defineOk : String → Bool
  createRet : Int
  shutdownRet : Int
  destroyRet : Int
  undefineRet : Int

/-- The domain XML document built by `VMManager::createVM`
(`src/vm.cpp` lines 160-187), concatenated exactly as in the source
(adjacent C++ string literals juxtapose, giving the two-space runs). -/
def domainXML (dt : DomainType) (name : String) (memory vcpus : Int)
    (qemu_path disk_path : String) : String :=
  "<domain type=\x27" ++ domain_type_strings dt ++ "\x27>" ++
  "  <name>" ++ name ++ "</name>" ++
  "  <memory unit=\x27MiB\x27>" ++ toString memory ++ "</memory>" ++
  "  <vcpu>" ++ toString vcpus ++ "</vcpu>" ++
  "  <os>" ++
  "    <type arch=\x27x86_64\x27>hvm</type>" ++
  "    <boot dev=\x27hd\x27/>" ++
  "  </os>" ++
  "  <features>" ++
  "    <acpi/>" ++
  "    <apic/>" ++
  "  </features>" ++
  "  <devices>" ++
  "    <emulator>" ++ qemu_path ++ "</emulator>" ++
  "    <disk type=\x27file\x27 device=\x27disk\x27>" ++
  "      <driver name=\x27qemu\x27 type=\x27qcow2\x27/>" ++
  "      <source file=\x27" ++ disk_path ++ "\x27/>" ++
  "      <target dev=\x27vda\x27 bus=\x27virtio\x27/>" ++
  "    </disk>" ++
  "    <interface type=\x27network\x27>" ++
  "      <source network=\x27default\x27/>" ++
  "      <model type=\x27virtio\x27/>" ++
  "    </interface>" ++
  "    <console type=\x27pty\x27/>" ++
  "    <graphics type=\x27vnc\x27 port=\x27-1\x27/>" ++
  "  </devices>" ++
  "</domain>"

/-- `VMManager::createVM` (`src/vm.cpp` lines 138-197).  Returns the
defined domain's handle (modelled by its name) or `none`, paired with
the trace of daemon calls issued.  Mirrors the source control flow:
find the QEMU binary (empty result aborts before any daemon call),
resolve the disk path from the HOME environment value, build the XML,
issue `virDomainDefineXML`, and return null when the daemon rejects. -/
def createVM (fs : FS) (env : SysEnv) (home : Option String)
    (daemon : Daemon) (domain_type : DomainType) (name : String)
    (memory vcpus : Int) : Option String × List DaemonCall :=
  let qemu_path := (findQEMUPath fs env).1
  if qemu_path = "" then (none, [])
  else
    let disk_path :=
      match home with
      | some h => h ++ "/.local/share/libvirt/images/" ++ name ++ ".qcow2"
      | none => "/var/lib/libvirt/images/" ++ name ++ ".qcow2"
    let xml := domainXML domain_type name memory vcpus qemu_path disk_path
    if daemon.defineOk xml then (some name, [DaemonCall.defineXML xml])
    else (none, [DaemonCall.defineXML xml])

/-- `VMManager::startVM` (`src/vm.cpp` lines 205-212):
`virDomainCreate`, failure when the daemon returns a negative value. -/
def startVM (daemon : Daemon) : Bool × List DaemonCall :=
  if daemon.createRet < 0 then (false, [DaemonCall.create])
  else (true, [DaemonCall.create])

/-- `VMManager::stopVM` (`src/vm.cpp` lines 220-227):
`virDomainShutdown`, the graceful cooperative shutdown request. -/
def stopVM (daemon : Daemon) : Bool × List DaemonCall :=
  if daemon.shutdownRet < 0 then (false, [DaemonCall.shutdown])
  else (true, [DaemonCall.shutdown])

/-- `VMManager::destroyVM` (`src/vm.cpp` lines 235-243):
`virDomainDestroy`, the forceful immediate termination. -/
def destroyVM (daemon : Daemon) : Bool × List DaemonCall :=
  if daemon.destroyRet < 0 then (false, [DaemonCall.destroy])
  else (true, [DaemonCall.destroy])

/-- `VMManager::undefineVM` (`src/vm.cpp` lines 251-258): issues
`virDomainUndefine` unconditionally and reports the daemon's answer.
The function receives no domain state at all, matching the source,
which never inspects the domain's state before the call. -/
def undefineVM (daemon : Daemon) : Bool × List DaemonCall :=
  if daemon.undefineRet < 0 then (false, [DaemonCall.undefine])
  else (true, [DaemonCall.undefine])

/-- `VMManager::stopVM` of the earlier revision `kvm.cpp` (lines
136-143), which issues the forceful `virDomainDestroy` under the name
`stopVM`.  That file is an orphaned snapshot: it does not compile (it
reads an undeclared `name` and calls `connect()` without its required
argument) and is not part of the built program. -/
def kvm_stopVM (daemon : Daemon) : Bool × List DaemonCall :=
  if daemon.destroyRet < 0 then (false, [DaemonCall.destroy])
  else (true, [DaemonCall.destroy])

/-- `main` (`src/main.cpp` lines 12-52): connect to the system URI,
fall back to the session URI, exit 1 when both fail, exit 0 otherwise.
Returns the exit code, the list of URIs attempted in order, and the URI
the program ended up connected to (if any).  The body after a
successful connection (listing and the createVM demonstration) does not
affect the exit code, which the source returns as 0 unconditionally. -/
def main (connOk : String → Bool) : Nat × List String × Option String :=
  let uri := "qemu:///system"
  if connOk uri = false then
    let uri2 := "qemu:///session"
    if connOk uri2 = false then (1, [uri, uri2], none)
    else (0, [uri, uri2], some uri2)
  else (0, [uri], some uri)

/-- Filesystem oracle on which no path exists. -/
def fsNone : FS := ⟨fun _ => false, fun _ => false, fun _ => false⟩

/-- Filesystem oracle on which exactly "/usr/bin/qemu-system-x86_64"
(the third candidate) exists as an executable regular file. -/
def fsUsrBin : FS :=
  ⟨fun p => p == "/usr/bin/qemu-system-x86_64",
   fun p => p == "/usr/bin/qemu-system-x86_64",
   fun p => p == "/usr/bin/qemu-system-x86_64"⟩

/-- Filesystem oracle on which exactly the second candidate
"/usr/local/bin/qemu-system-x86_64" exists as an executable regular
file (the first candidate is missing). -/
def fsP2 : FS :=
  ⟨fun p => p == "/usr/local/bin/qemu-system-x86_64",
   fun p => p == "/usr/local/bin/qemu-system-x86_64",
   fun p => p == "/usr/local/bin/qemu-system-x86_64"⟩

/-- Environment oracle whose system lookup yields no output. -/
def envNone : SysEnv := ⟨fun _ => none⟩

/-- Daemon oracle that accepts every request. -/
def daemonOk : Daemon := ⟨fun _ => true, 0, 0, 0, 0⟩

/-- Connection oracle on which only the session URI accepts. -/
def connSessionOnly : String → Bool := fun u => u == "qemu:///session"

/-- The candidate loop returns the first list element satisfying the
per-candidate test. -/
theorem findFirstQEMU_eq_find (fs : FS) (paths : List String) :
    findFirstQEMU fs paths = paths.find? (candidateOk fs) := by
  induction paths with
  | nil => rfl
  | cons p rest ih =>
    unfold findFirstQEMU
    rw [List.find?_cons]
    cases h : candidateOk fs p <;> simp [h, ih]

/-- C5: for every raw daemon state code, `getStateString` yields a
member of the closed set {Running, Blocked, Paused, Shutdown, Shutoff,
Crashed, Unknown}; each of the six recognized codes maps to its
corresponding member, and every unrecognized code maps to Unknown. -/
theorem getStateString_total_mapping :
    (∀ s : Nat, getStateString s ∈
      ["Running", "Blocked", "Paused", "Shutdown", "Shutoff", "Crashed",
       "Unknown"])
    ∧ getStateString VIR_DOMAIN_RUNNING = "Running"
    ∧ getStateString VIR_DOMAIN_BLOCKED = "Blocked"
    ∧ getStateString VIR_DOMAIN_PAUSED = "Paused"
    ∧ getStateString VIR_DOMAIN_SHUTDOWN = "Shutdown"
    ∧ getStateString VIR_DOMAIN_SHUTOFF = "Shutoff"
    ∧ getStateString VIR_DOMAIN_CRASHED = "Crashed"
    ∧ (∀ s : Nat, s ≠ VIR_DOMAIN_RUNNING → s ≠ VIR_DOMAIN_BLOCKED →
        s ≠ VIR_DOMAIN_PAUSED → s ≠ VIR_DOMAIN_SHUTDOWN →
        s ≠ VIR_DOMAIN_SHUTOFF → s ≠ VIR_DOMAIN_CRASHED →
        getStateString s = "Unknown") := by
  refine ⟨?_, rfl, rfl, rfl, rfl, rfl, rfl, ?_⟩
  · intro s
    unfold getStateString
    split_ifs <;> decide
  · intro s h1 h2 h3 h4 h5 h6
    unfold getStateString
    rw [if_neg h1, if_neg h2, if_neg h3, if_neg h4, if_neg h5, if_neg h6]

/-- Witness for C5: the unrecognized code VIR_DOMAIN_PMSUSPENDED (7)
maps to "Unknown". -/
theorem getStateString_total_mapping_witness :
    getStateString VIR_DOMAIN_PMSUSPENDED = "Unknown" :=
  getStateString_total_mapping.2.2.2.2.2.2.2 VIR_DOMAIN_PMSUSPENDED
    (by decide) (by decide) (by decide) (by decide) (by decide) (by decide)

/-- C4: whatever the daemon answers, `stopVM` issues exactly the
graceful `virDomainShutdown` request and `destroyVM` exactly the
forceful `virDomainDestroy` request; the two daemon calls are distinct
and neither operation issues the other's call. -/
theorem stopVM_graceful_destroyVM_forceful :
    ∀ daemon : Daemon,
      (stopVM daemon).2 = [DaemonCall.shutdown]
      ∧ (destroyVM daemon).2 = [DaemonCall.destroy]
      ∧ DaemonCall.shutdown ≠ DaemonCall.destroy := by
  intro daemon
  refine ⟨?_, ?_, by decide⟩
  · unfold stopVM
    split <;> rfl
  · unfold destroyVM
    split <;> rfl

/-- Witness for C4: at the daemon oracle that accepts every request,
stop issues the shutdown call and destroy the destroy call. -/
theorem stopVM_graceful_destroyVM_forceful_witness :
    (stopVM daemonOk).2 = [DaemonCall.shutdown]
    ∧ (destroyVM daemonOk).2 = [DaemonCall.destroy]
    ∧ DaemonCall.shutdown ≠ DaemonCall.destroy :=
  stopVM_graceful_destroyVM_forceful daemonOk

/-- C2 evidence: `undefineVM` issues the daemon's undefine call for
every possible daemon response, i.e. unconditionally — the wrapper
consults no domain state and performs no StillRunning check (its model
does not even receive the domain's state); with a daemon that accepts,
it reports success. -/
theorem undefineVM_unconditional_call :
    (∀ daemon : Daemon, (undefineVM daemon).2 = [DaemonCall.undefine])
    ∧ undefineVM daemonOk = (true, [DaemonCall.undefine]) := by
  refine ⟨?_, rfl⟩
  intro daemon
  unfold undefineVM
  split <;> rfl

/-- C6: for every candidate list, the emulator search returns the first
candidate that exists, is a regular file and is executable, without
reaching the system-lookup fallback; when no candidate matches it
reaches the fallback with the fixed binary name, returns its trimmed
output when non-empty, and reports not-found (the empty string) exactly
when the fallback also yields nothing. -/
theorem findQEMUPath_first_match_then_fallback (fs : FS) (env : SysEnv)
    (paths : List String) :
    (∀ p, paths.find? (candidateOk fs) = some p →
      findQEMUPathWith fs env paths = (p, false))
    ∧ (paths.find? (candidateOk fs) = none →
        (findQEMUPathWith fs env paths).2 = true
        ∧ (∀ buf, env.sysLookup qemuBinaryName = some buf →
            trimTrailingNewline buf ≠ "" →
            (findQEMUPathWith fs env paths).1 = trimTrailingNewline buf)
        ∧ (env.sysLookup qemuBinaryName = none →
            (findQEMUPathWith fs env paths).1 = "")
        ∧ (∀ buf, env.sysLookup qemuBinaryName = some buf →
            trimTrailingNewline buf = "" →
            (findQEMUPathWith fs env paths).1 = "")) := by
  constructor
  · intro p hp
    unfold findQEMUPathWith
    rw [findFirstQEMU_eq_find, hp]
  · intro hn
    refine ⟨?_, ?_, ?_, ?_⟩
    · unfold findQEMUPathWith
      rw [findFirstQEMU_eq_find, hn]
      cases hs : env.sysLookup qemuBinaryName
      · rfl
      · simp only
        split <;> rfl
    · intro buf hbuf htrim
      unfold findQEMUPathWith
      rw [findFirstQEMU_eq_find, hn, hbuf]
      simp only
      rw [if_pos htrim]
    · intro hs
      unfold findQEMUPathWith
      rw [findFirstQEMU_eq_find, hn, hs]
    · intro buf hbuf htrim
      unfold findQEMUPathWith
      rw [findFirstQEMU_eq_find, hn, hbuf]
      simp only
      rw [if_neg (by simp [htrim])]

/-- Witness for C6: with the first candidate missing and the second an
executable regular file, the search returns the second candidate and
the fallback is not reached. -/
theorem findQEMUPath_first_match_then_fallback_witness :
    findQEMUPathWith fsP2 envNone qemu_paths =
      ("/usr/local/bin/qemu-system-x86_64", false) :=
  (findQEMUPath_first_match_then_fallback fsP2 envNone qemu_paths).1
    "/usr/local/bin/qemu-system-x86_64" (by decide)

/-- C7: the driver tries the system URI first and the session URI
second, each at most once and never a third endpoint; it connects to
the first URI that accepts, and exits 0 exactly when some endpoint
accepts and 1 when both fail. -/
theorem main_fallback_order_and_exit (connOk : String → Bool) :
    ((main connOk).1 = 0 ↔
      (connOk "qemu:///system" = true ∨ connOk "qemu:///session" = true))
    ∧ (connOk "qemu:///system" = true →
        main connOk = (0, ["qemu:///system"], some "qemu:///system"))
    ∧ (connOk "qemu:///system" = false → connOk "qemu:///session" = true →
        main connOk =
          (0, ["qemu:///system", "qemu:///session"], some "qemu:///session"))
    ∧ (connOk "qemu:///system" = false → connOk "qemu:///session" = false →
        main connOk = (1, ["qemu:///system", "qemu:///session"], none))
    ∧ (main connOk).2.1.length ≤ 2 := by
  cases hA : connOk "qemu:///system" <;>
    cases hB : connOk "qemu:///session" <;>
      simp [main, hA, hB]

/-- Witness for C7: when only the session URI accepts, the driver
attempts system then session, connects to session, and exits 0. -/
theorem main_fallback_order_and_exit_witness :
    main connSessionOnly =
      (0, ["qemu:///system", "qemu:///session"], some "qemu:///session") :=
  (main_fallback_order_and_exit connSessionOnly).2.2.1 (by decide) (by decide)

/-- C8: whenever the emulator search succeeds, the wire document passed
to the daemon's define call carries the disk image path under the
user-scoped directory derived from the HOME environment value when that
value is present, and under the fixed system-wide directory when it is
absent. -/
theorem createVM_disk_path_policy (fs : FS) (env : SysEnv)
    (daemon : Daemon) (dt : DomainType) (name : String)
    (memory vcpus : Int) (hq : (findQEMUPath fs env).1 ≠ "") :
    (∀ h : String,
      (createVM fs env (some h) daemon dt name memory vcpus).2 =
        [DaemonCall.defineXML (domainXML dt name memory vcpus
          (findQEMUPath fs env).1
          (h ++ "/.local/share/libvirt/images/" ++ name ++ ".qcow2"))])
    ∧ ((createVM fs env none daemon dt name memory vcpus).2 =
        [DaemonCall.defineXML (domainXML dt name memory vcpus
          (findQEMUPath fs env).1
          ("/var/lib/libvirt/images/" ++ name ++ ".qcow2"))]) := by
  constructor
  · intro h
    simp [createVM, hq, apply_ite]
  · simp [createVM, hq, apply_ite]

/-- Witness for C8: on a filesystem where the Linux-standard candidate
exists and with HOME set to "/root", the define call's document carries
the user-scoped disk path. -/
theorem createVM_disk_path_policy_witness :
    (createVM fsUsrBin envNone (some "/root") daemonOk DomainType.KVM
      "test-vm" 1024 2).2 =
      [DaemonCall.defineXML (domainXML DomainType.KVM "test-vm" 1024 2
        (findQEMUPath fsUsrBin envNone).1
        ("/root" ++ "/.local/share/libvirt/images/" ++ "test-vm" ++
          ".qcow2"))] :=
  (createVM_disk_path_policy fsUsrBin envNone daemonOk DomainType.KVM
    "test-vm" 1024 2 (by decide)).1 "/root"

/-- C10: when the emulator search yields the empty string, `createVM`
returns null without issuing any daemon call at all — in particular no
define call, so the daemon's registry is untouched. -/
theorem createVM_no_define_without_emulator (fs : FS) (env : SysEnv)
    (home : Option String) (daemon : Daemon) (dt : DomainType)
    (name : String) (memory vcpus : Int)
    (hq : (findQEMUPath fs env).1 = "") :
    createVM fs env home daemon dt name memory vcpus = (none, []) := by
  unfold createVM
  rw [if_pos hq]

/-- Witness for C10: on a filesystem with no candidate present and a
system lookup yielding nothing, `createVM` fails with an empty daemon
trace. -/
theorem createVM_no_define_without_emulator_witness :
    createVM fsNone envNone none daemonOk DomainType.QEMU "test-vm"
      1024 2 = (none, []) :=
  createVM_no_define_without_emulator fsNone envNone none daemonOk
    DomainType.QEMU "test-vm" 1024 2 (by decide)

set_option maxRecDepth 100000

/-- C9: serializing the descriptor built from name "test-vm", type kvm,
memory 1024 and 2 vCPUs (at the Linux-standard emulator path and the
system-wide disk path) yields a document whose domain element carries
the lowercase tag kvm, whose name element reads test-vm, whose memory
element reads 1024 with unit MiB, and whose vcpu element reads 2;
serialization is a total function, hence deterministic and never
failing. -/
theorem domainXML_test_vm_elements :
    (∃ b, domainXML DomainType.KVM "test-vm" 1024 2
        "/usr/bin/qemu-system-x86_64"
        "/var/lib/libvirt/images/test-vm.qcow2" =
      "<domain type=\x27kvm\x27>" ++ b)
    ∧ (∃ a b, domainXML DomainType.KVM "test-vm" 1024 2
        "/usr/bin/qemu-system-x86_64"
        "/var/lib/libvirt/images/test-vm.qcow2" =
      a ++ "<name>test-vm</name>" ++ b)
    ∧ (∃ a b, domainXML DomainType.KVM "test-vm" 1024 2
        "/usr/bin/qemu-system-x86_64"
        "/var/lib/libvirt/images/test-vm.qcow2" =
      a ++ "<memory unit=\x27MiB\x27>1024</memory>" ++ b)
    ∧ (∃ a b, domainXML DomainType.KVM "test-vm" 1024 2
        "/usr/bin/qemu-system-x86_64"
        "/var/lib/libvirt/images/test-vm.qcow2" =
      a ++ "<vcpu>2</vcpu>" ++ b) := by
  refine ⟨⟨"  <name>test-vm</name>  <memory unit=\x27MiB\x27>1024</memory>  <vcpu>2</vcpu>  <os>    <type arch=\x27x86_64\x27>hvm</type>    <boot dev=\x27hd\x27/>  </os>  <features>    <acpi/>    <apic/>  </features>  <devices>    <emulator>/usr/bin/qemu-system-x86_64</emulator>    <disk type=\x27file\x27 device=\x27disk\x27>      <driver name=\x27qemu\x27 type=\x27qcow2\x27/>      <source file=\x27/var/lib/libvirt/images/test-vm.qcow2\x27/>      <target dev=\x27vda\x27 bus=\x27virtio\x27/>    </disk>    <interface type=\x27network\x27>      <source network=\x27default\x27/>      <model type=\x27virtio\x27/>    </interface>    <console type=\x27pty\x27/>    <graphics type=\x27vnc\x27 port=\x27-1\x27/>  </devices></domain>", ?_⟩,
    ⟨"<domain type=\x27kvm\x27>  ", "  <memory unit=\x27MiB\x27>1024</memory>  <vcpu>2</vcpu>  <os>    <type arch=\x27x86_64\x27>hvm</type>    <boot dev=\x27hd\x27/>  </os>  <features>    <acpi/>    <apic/>  </features>  <devices>    <emulator>/usr/bin/qemu-system-x86_64</emulator>    <disk type=\x27file\x27 device=\x27disk\x27>      <driver name=\x27qemu\x27 type=\x27qcow2\x27/>      <source file=\x27/var/lib/libvirt/images/test-vm.qcow2\x27/>      <target dev=\x27vda\x27 bus=\x27virtio\x27/>    </disk>    <interface type=\x27network\x27>      <source network=\x27default\x27/>      <model type=\x27virtio\x27/>    </interface>    <console type=\x27pty\x27/>    <graphics type=\x27vnc\x27 port=\x27-1\x27/>  </devices></domain>", ?_⟩,
    ⟨"<domain type=\x27kvm\x27>  <name>test-vm</name>  ", "  <vcpu>2</vcpu>  <os>    <type arch=\x27x86_64\x27>hvm</type>    <boot dev=\x27hd\x27/>  </os>  <features>    <acpi/>    <apic/>  </features>  <devices>    <emulator>/usr/bin/qemu-system-x86_64</emulator>    <disk type=\x27file\x27 device=\x27disk\x27>      <driver name=\x27qemu\x27 type=\x27qcow2\x27/>      <source file=\x27/var/lib/libvirt/images/test-vm.qcow2\x27/>      <target dev=\x27vda\x27 bus=\x27virtio\x27/>    </disk>    <interface type=\x27network\x27>      <source network=\x27default\x27/>      <model type=\x27virtio\x27/>    </interface>    <console type=\x27pty\x27/>    <graphics type=\x27vnc\x27 port=\x27-1\x27/>  </devices></domain>", ?_⟩,
    ⟨"<domain type=\x27kvm\x27>  <name>test-vm</name>  <memory unit=\x27MiB\x27>1024</memory>  ", "  <os>    <type arch=\x27x86_64\x27>hvm</type>    <boot dev=\x27hd\x27/>  </os>  <features>    <acpi/>    <apic/>  </features>  <devices>    <emulator>/usr/bin/qemu-system-x86_64</emulator>    <disk type=\x27file\x27 device=\x27disk\x27>      <driver name=\x27qemu\x27 type=\x27qcow2\x27/>      <source file=\x27/var/lib/libvirt/images/test-vm.qcow2\x27/>      <target dev=\x27vda\x27 bus=\x27virtio\x27/>    </disk>    <interface type=\x27network\x27>      <source network=\x27default\x27/>      <model type=\x27virtio\x27/>    </interface>    <console type=\x27pty\x27/>    <graphics type=\x27vnc\x27 port=\x27-1\x27/>  </devices></domain>", ?_⟩⟩ <;> rfl

/-- C1 evidence: with the XML-reserved character < in the domain name,
`createVM` embeds the name verbatim into the wire document — the name
element of the define call's document contains the raw, unescaped
name, not an escaped form. -/
theorem createVM_embeds_name_unescaped :
    ∃ a b, (createVM fsUsrBin envNone none daemonOk DomainType.KVM
      "a<b" 1024 2).2 =
      [DaemonCall.defineXML (a ++ "<name>a<b</name>" ++ b)] :=
  ⟨"<domain type=\x27kvm\x27>  ", "  <memory unit=\x27MiB\x27>1024</memory>  <vcpu>2</vcpu>  <os>    <type arch=\x27x86_64\x27>hvm</type>    <boot dev=\x27hd\x27/>  </os>  <features>    <acpi/>    <apic/>  </features>  <devices>    <emulator>/usr/bin/qemu-system-x86_64</emulator>    <disk type=\x27file\x27 device=\x27disk\x27>      <driver name=\x27qemu\x27 type=\x27qcow2\x27/>      <source file=\x27/var/lib/libvirt/images/a<b.qcow2\x27/>      <target dev=\x27vda\x27 bus=\x27virtio\x27/>    </disk>    <interface type=\x27network\x27>      <source network=\x27default\x27/>      <model type=\x27virtio\x27/>    </interface>    <console type=\x27pty\x27/>    <graphics type=\x27vnc\x27 port=\x27-1\x27/>  </devices></domain>", rfl⟩

/-- C3 evidence: `createVM` performs no parameter validation — called
with an empty name, memory 0 and vcpus 0 (and the emulator present and
a daemon that accepts), it succeeds and issues the define call with
those values embedded, instead of failing with a validation error. -/
theorem createVM_accepts_invalid_parameters :
    createVM fsUsrBin envNone none daemonOk DomainType.KVM "" 0 0 =
      (some "",
       [DaemonCall.defineXML "<domain type=\x27kvm\x27>  <name></name>  <memory unit=\x27MiB\x27>0</memory>  <vcpu>0</vcpu>  <os>    <type arch=\x27x86_64\x27>hvm</type>    <boot dev=\x27hd\x27/>  </os>  <features>    <acpi/>    <apic/>  </features>  <devices>    <emulator>/usr/bin/qemu-system-x86_64</emulator>    <disk type=\x27file\x27 device=\x27disk\x27>      <driver name=\x27qemu\x27 type=\x27qcow2\x27/>      <source file=\x27/var/lib/libvirt/images/.qcow2\x27/>      <target dev=\x27vda\x27 bus=\x27virtio\x27/>    </disk>    <interface type=\x27network\x27>      <source network=\x27default\x27/>      <model type=\x27virtio\x27/>    </interface>    <console type=\x27pty\x27/>    <graphics type=\x27vnc\x27 port=\x27-1\x27/>  </devices></domain>"]) := rfl

end Augustus
